import Mathlib

/- Verification development for the nextjs-auth repository core:
   session codec and store (src/app/lib/session.ts, quoted in README Step 2),
   authentication server actions (src/app/actions/auth.ts, README Step 4),
   data access layer guards (src/app/lib/dal.ts, README Step 7),
   and the edge middleware (middleware.ts, src/unnamed/part_000).
   The TypeScript is embedded shallowly: JSON.parse results become `JsValue`,
   JS truthiness / strict equality / property access become explicit total
   functions, the host date parser `new Date(string)` is a parameter
   `dparse : String -> Option Int` (`none` = Invalid Date), and `redirect()`
   works by throwing a `NEXT_REDIRECT` error: in dal.ts and in `logout` the
   call sits outside any try/catch, so it is an abort-like control transfer
   terminating the surrounding function, but inside `login` the call sits in
   the function's own try block, whose catch intercepts the throw and returns
   the generic retry message instead. -/

namespace NextjsAuth

/-- Result of a successful `JSON.parse`: a JavaScript value.  Objects carry
their fields as an association list (a parsed object has no duplicate keys). -/
inductive JsValue where
  | null
  | bool (b : Bool)
  | num (n : Int)
  | str (s : String)
  | arr (elems : List JsValue)
  | obj (fields : List (String × JsValue))

/-- First binding of a key in a parsed object's field list. -/
def lookupField : List (String × JsValue) → String → Option JsValue
  | [], _ => none
  | (k, v) :: rest, key => if k == key then some v else lookupField rest key

/-- JavaScript property access `v.key` on a non-null value: `none` models
`undefined` (missing field, or access on a primitive). -/
def jsField : JsValue → String → Option JsValue
  | JsValue.obj fields, key => lookupField fields key
  | _, _ => none

/-- JavaScript truthiness of a possibly-undefined value
(`none` models `undefined`). -/
def jsTruthy : Option JsValue → Bool
  | none => false
  | some JsValue.null => false
  | some (JsValue.bool b) => b
  | some (JsValue.num n) => n != 0
  | some (JsValue.str s) => s != ""
  | some (JsValue.arr _) => true
  | some (JsValue.obj _) => true

/-- JavaScript `new Date(x)` on a possibly-undefined value, as a timestamp in
milliseconds; `none` models `Invalid Date`.  String parsing is the host date
parser `dparse`.  `new Date(undefined)` is invalid, `new Date(null)` is the
epoch, numbers are timestamps, booleans coerce to 0/1; arrays and objects are
approximated as invalid (no session field in this code base holds one). -/
def jsNewDate (dparse : String → Option Int) : Option JsValue → Option Int
  | none => none
  | some JsValue.null => some 0
  | some (JsValue.bool b) => some (if b then 1 else 0)
  | some (JsValue.num n) => some n
  | some (JsValue.str s) => dparse s
  | some (JsValue.arr _) => none
  | some (JsValue.obj _) => none

/-- JavaScript `d < now` on dates: comparison with an `Invalid Date` (a `NaN`
timestamp) is false. -/
def jsDateLt (d : Option Int) (now : Int) : Bool :=
  match d with
  | some t => decide (t < now)
  | none => false

/-- JavaScript `String.prototype.startsWith`, extensionally: the code points of
`p` lead `s`. -/
def jsStartsWith (s p : String) : Bool :=
  s.toList.take p.length == p.toList

/-- JavaScript strict equality `v === r` between a possibly-undefined value and
a string literal: true exactly when `v` is that string. -/
def roleIs (v : Option JsValue) (r : String) : Bool :=
  match v with
  | some (JsValue.str s) => s == r
  | _ => false

/-- JavaScript `allowed.includes(v)` for a string array `allowed` and a
possibly-undefined value `v` (SameValueZero membership). -/
def includesRole (allowed : List String) (v : Option JsValue) : Bool :=
  match v with
  | some (JsValue.str s) => allowed.contains s
  | _ => false

/-- The per-request session cookie slot, at the granularity the code observes:
`none` = no session cookie; `some none` = a cookie value whose `JSON.parse`
throws; `some (some v)` = a cookie value parsing to `v`.  `createSession`
stores `JSON.stringify` of a record, which parses back to the same value. -/
abbrev CookieSlot := Option (Option JsValue)

/-- Milliseconds in `7 * 24 * 60 * 60 * 1000`, the session lifetime used by
`createSession`. -/
def sevenDaysMs : Int := 7 * 24 * 60 * 60 * 1000

/-- session.ts `createSession(userId, email, role)`: the session payload it
serializes into the cookie, with `expiresAt = new Date(Date.now() + 7 days)`
stored as an ISO string (`iso` is the host `Date.prototype.toISOString`). -/
def createSession (iso : Int → String) (now : Int)
    (userId : Int) (email role : String) : JsValue :=
  JsValue.obj [("userId", JsValue.num userId), ("email", JsValue.str email),
    ("role", JsValue.str role), ("expiresAt", JsValue.str (iso (now + sevenDaysMs)))]

/-- session.ts `deleteSession()`: unconditionally removes the session cookie. -/
def deleteSession (_slot : CookieSlot) : CookieSlot := none

/-- session.ts `getSession()`: returns `null` when no cookie is present or
`JSON.parse` throws (including on the parsed value `null`, whose property
access throws and is caught); otherwise returns the parsed value unless
`new Date(session.expiresAt) < new Date()`.  Total: it never throws. -/
def getSession (dparse : String → Option Int) (now : Int)
    (cookie : CookieSlot) : Option JsValue :=
  match cookie with
  | none => none
  | some none => none
  | some (some JsValue.null) => none
  | some (some v) =>
      if jsDateLt (jsNewDate dparse (jsField v "expiresAt")) now then none
      else some v

/-- auth.ts `logout()`: deletes the session, then redirects to `/login`.
Total (never fails); the second component is the redirect target. -/
def logout (slot : CookieSlot) : CookieSlot × String :=
  (deleteSession slot, "/login")

/-- Outcome of the edge middleware for one request: pass the request through,
redirect to `/login?redirect=<returnPath>`, or redirect to `/dashboard`. -/
inductive MwOutcome where
  | next
  | redirectLogin (returnPath : String)
  | redirectDashboard
deriving Repr, DecidableEq

/-- middleware.ts `protectedRoutes`. -/
def protectedRoutes : List String := ["/dashboard", "/admin"]

/-- middleware.ts `publicRoutes`. -/
def publicRoutes : List String := ["/login", "/"]

/-- The middleware's inline session decode: `JSON.parse` of the cookie in a
try/catch, then `if (session.expiresAt && new Date(session.expiresAt) < new
Date()) session = null`.  A parsed `null` throws on the property access and is
caught.  Total: it never throws. -/
def mwSession (dparse : String → Option Int) (now : Int)
    (cookie : CookieSlot) : Option JsValue :=
  match cookie with
  | none => none
  | some none => none
  | some (some JsValue.null) => none
  | some (some v) =>
      if jsTruthy (jsField v "expiresAt")
          && jsDateLt (jsNewDate dparse (jsField v "expiresAt")) now then none
      else some v

/-- middleware.ts `middleware(req)`: route classification by `startsWith`
against `protectedRoutes`, exact membership in `publicRoutes`, the inline
session decode, then the three redirect checks in source order. -/
def middleware (dparse : String → Option Int) (now : Int)
    (path : String) (cookie : CookieSlot) : MwOutcome :=
  let isProtectedRoute := protectedRoutes.any (fun route => jsStartsWith path route)
  let isPublicRoute := publicRoutes.contains path
  let session := mwSession dparse now cookie
  if isProtectedRoute && !jsTruthy (session.bind (fun s => jsField s "userId")) then
    MwOutcome.redirectLogin path
  else if isPublicRoute && path == "/login"
      && jsTruthy (session.bind (fun s => jsField s "userId")) then
    MwOutcome.redirectDashboard
  else if jsStartsWith path "/admin"
      && !roleIs (session.bind (fun s => jsField s "role")) "admin" then
    MwOutcome.redirectDashboard
  else
    MwOutcome.next

/-- auth.ts regular-expression email check, determinized: the pattern accepts
exactly the strings with one `@`, a nonempty whitespace-free local part, and a
whitespace-free domain containing a dot with nonempty text on both sides. -/
def isValidEmail (email : String) : Bool :=
  match email.toList.splitOn '@' with
  | [localPart, domain] =>
      !localPart.isEmpty && localPart.all (fun c => !c.isWhitespace)
        && domain.all (fun c => !c.isWhitespace)
        && (List.range domain.length).any (fun i =>
            decide (0 < i) && decide (i + 1 < domain.length) && domain.getD i ' ' == '.')
  | _ => false

/-- auth.ts email validation: `if (!email || !isValidEmail(email))`; the form
value is `none` when the field is absent. -/
def emailError (email : Option String) : Option String :=
  match email with
  | none => some "Please enter a valid email address."
  | some e =>
      if e == "" || !isValidEmail e then some "Please enter a valid email address."
      else none

/-- auth.ts password validation: `if (!password || password.trim().length ===
0)`; the trimmed length is zero exactly when every character is whitespace. -/
def passwordError (password : Option String) : Option String :=
  match password with
  | none => some "Password is required."
  | some p =>
      if p == "" || p.toList.all Char.isWhitespace then some "Password is required."
      else none

/-- Outcome of one awaited upstream HTTP call: a decoded success body, a
response with `ok` false, or a thrown fault (network failure or body decode
failure). -/
inductive FetchOutcome (α : Type) where
  | ok (val : α)
  | errorStatus
  | fault

/-- definitions.ts `AuthResponse`. -/
structure AuthResponse where
  access_token : String
  refresh_token : String

/-- definitions.ts `User`, as returned by the identity provider's profile
endpoint.  `role` is an open string here since authorization only compares it
to literals. -/
structure ApiUser where
  id : Int
  email : String
  password : String
  name : String
  role : String
  avatar : String

/-- The identity provider collaborator: credential exchange and profile fetch,
each an awaited call with a `FetchOutcome`. -/
structure Provider where
  exchange : String → String → FetchOutcome AuthResponse
  profile : String → FetchOutcome ApiUser

/-- Result of auth.ts `login`: field-level validation errors, a form-level
message, or an abort-like redirect to a target path. -/
inductive LoginResult where
  | validationErrors (emailField passwordField : Option String)
  | message (msg : String)
  | redirectTo (target : String)
deriving Repr, DecidableEq

/-- Post-validation body of auth.ts `login`, inside its try/catch: credential
exchange, then profile fetch, then `createSession` and `redirect("/dashboard")`.
Each non-ok response returns its fixed message; a thrown fault is caught and
becomes the generic retry message.  On full success the session cookie is
written, but `redirect` — which works by throwing a `NEXT_REDIRECT` error and
is called inside this same try block — is intercepted by the function's own
catch, so the action returns the generic retry message rather than signalling
the redirect.  Returns the result and the cookie slot. -/
def loginExchange (provider : Provider) (iso : Int → String) (now : Int)
    (email password : String) (slot : CookieSlot) : LoginResult × CookieSlot :=
  match provider.exchange email password with
  | FetchOutcome.fault =>
      (LoginResult.message "An error occurred during login. Please try again.", slot)
  | FetchOutcome.errorStatus =>
      (LoginResult.message "Invalid email or password. Please try again.", slot)
  | FetchOutcome.ok auth =>
      match provider.profile auth.access_token with
      | FetchOutcome.fault =>
          (LoginResult.message "An error occurred during login. Please try again.", slot)
      | FetchOutcome.errorStatus =>
          (LoginResult.message "Failed to fetch user profile.", slot)
      | FetchOutcome.ok user =>
          (LoginResult.message "An error occurred during login. Please try again.",
           some (some (createSession iso now user.id user.email user.role)))

/-- auth.ts `login(state, formData)`: both field validations run
independently; on any validation error the provider is not called and the
cookie slot is untouched; otherwise the post-validation flow runs. -/
def login (provider : Provider) (iso : Int → String) (now : Int)
    (email password : Option String) (slot : CookieSlot) : LoginResult × CookieSlot :=
  let eErr := emailError email
  let pErr := passwordError password
  if eErr.isSome || pErr.isSome then
    (LoginResult.validationErrors eErr pErr, slot)
  else
    loginExchange provider iso now (email.getD "") (password.getD "") slot

/-- dal.ts `verifySession` return record: fields are read off the decoded
session value by property access, so each may be `undefined`. -/
structure VerifiedSession where
  isAuth : Bool
  userId : Option JsValue
  email : Option JsValue
  role : Option JsValue

/-- Result of a page-level guard: a returned record, or an abort-like
redirect control transfer to a target path. -/
inductive GuardResult (α : Type) where
  | ok (val : α)
  | redirectTo (target : String)

/-- dal.ts `verifySession()`: reads the session; `if (!session?.userId)
redirect("/login")`; otherwise returns the record. -/
def verifySession (dparse : String → Option Int) (now : Int)
    (cookie : CookieSlot) : GuardResult VerifiedSession :=
  let session := getSession dparse now cookie
  if !jsTruthy (session.bind (fun s => jsField s "userId")) then
    GuardResult.redirectTo "/login"
  else
    GuardResult.ok
      { isAuth := true
        userId := session.bind (fun s => jsField s "userId")
        email := session.bind (fun s => jsField s "email")
        role := session.bind (fun s => jsField s "role") }

/-- dal.ts `requireRole(allowedRoles)`: `verifySession()` first (its redirect
control transfer propagates), then `if (!allowedRoles.includes(session.role))
redirect("/dashboard")`, else the record is returned. -/
def requireRole (dparse : String → Option Int) (now : Int)
    (cookie : CookieSlot) (allowedRoles : List String) : GuardResult VerifiedSession :=
  match verifySession dparse now cookie with
  | GuardResult.redirectTo t => GuardResult.redirectTo t
  | GuardResult.ok s =>
      if !includesRole allowedRoles s.role then GuardResult.redirectTo "/dashboard"
      else GuardResult.ok s

/-- Classification of a path in the spec's route table: public, protected, or
protected with a role restriction. -/
inductive RouteClass where
  | publicClass
  | protectedClass (roles : Option (List String))

/-- The spec's reframed route-classification table for this deployment, one
entry per path stem: `/dashboard` protected, `/admin` protected with roles
`["admin"]`, `/login` public (the login path). -/
def specRouteTable : List (String × RouteClass) :=
  [("/dashboard", RouteClass.protectedClass none),
   ("/admin", RouteClass.protectedClass (some ["admin"])),
   ("/login", RouteClass.publicClass)]

/-- The route rules as they literally occur in middleware.ts: the two
`protectedRoutes` entries (plain protected) and the `/admin` role check. -/
def codeRouteRules : List (String × RouteClass) :=
  [("/dashboard", RouteClass.protectedClass none),
   ("/admin", RouteClass.protectedClass none),
   ("/admin", RouteClass.protectedClass (some ["admin"]))]

/-- The spec-table entry matching a path whose stem is longest, if any entry
matches (the spec's most-specific-wins tie-break). -/
def specLongestEntry (path : String) : Option (String × RouteClass) :=
  (specRouteTable.filter (fun e => jsStartsWith path e.1)).foldl
    (fun best e =>
      match best with
      | none => some e
      | some b => if b.1.length < e.1.length then some e else some b) none

/-- The spec's gatekeeper decision table (section 4.4), driven by the
most-specific matching entry of the route table: unmatched paths are public
and allowed; the login path with a valid session redirects to the landing
area; protected paths require a session; role-restricted paths additionally
require a matching role, failing soft to the landing area. -/
def specGatekeeper (dparse : String → Option Int) (now : Int)
    (path : String) (cookie : CookieSlot) : MwOutcome :=
  let session := mwSession dparse now cookie
  let valid := jsTruthy (session.bind (fun s => jsField s "userId"))
  match specLongestEntry path with
  | some (_, RouteClass.protectedClass none) =>
      if valid then MwOutcome.next else MwOutcome.redirectLogin path
  | some (_, RouteClass.protectedClass (some roles)) =>
      if !valid then MwOutcome.redirectLogin path
      else if includesRole roles (session.bind (fun s => jsField s "role")) then
        MwOutcome.next
      else MwOutcome.redirectDashboard
  | some (_, RouteClass.publicClass) =>
      if path == "/login" && valid then MwOutcome.redirectDashboard
      else MwOutcome.next
  | none => MwOutcome.next

/-- Decimal-digit string to a natural number, for the concrete date-parser
instantiation used in witnesses. -/
def decDigits : List Char → Option Nat
  | [] => none
  | cs =>
      if cs.all Char.isDigit then
        some (cs.foldl (fun n c => 10 * n + (c.toNat - 48)) 0)
      else none

/-- A concrete host date parser for witnesses: accepts decimal millisecond
timestamps, rejects everything else as an Invalid Date. -/
def dparse0 (s : String) : Option Int :=
  (decDigits s.toList).map Int.ofNat

/-- A concrete host date serializer for witnesses, inverse to `dparse0` on
nonnegative timestamps. -/
def iso0 (t : Int) : String := toString t

theorem jsStartsWith_take {path p q : String}
    (hp : jsStartsWith path p = true) (hq : jsStartsWith path q = true)
    (hlen : q.length ≤ p.length) :
    p.toList.take q.length = q.toList := by
  unfold jsStartsWith at hp hq
  rw [beq_iff_eq] at hp hq
  calc p.toList.take q.length
      = (path.toList.take p.length).take q.length := by rw [hp]
    _ = path.toList.take q.length := by rw [List.take_take, Nat.min_eq_left hlen]
    _ = q.toList := hq

theorem not_dashboard_admin {path : String}
    (h1 : jsStartsWith path "/dashboard" = true)
    (h2 : jsStartsWith path "/admin" = true) : False :=
  absurd (jsStartsWith_take h1 h2 (by decide)) (by decide)

theorem not_dashboard_login {path : String}
    (h1 : jsStartsWith path "/dashboard" = true)
    (h2 : jsStartsWith path "/login" = true) : False :=
  absurd (jsStartsWith_take h1 h2 (by decide)) (by decide)

theorem not_admin_login {path : String}
    (h1 : jsStartsWith path "/admin" = true)
    (h2 : jsStartsWith path "/login" = true) : False :=
  absurd (jsStartsWith_take h1 h2 (by decide)) (by decide)

theorem includesRole_singleton (r : String) (v : Option JsValue) :
    includesRole [r] v = roleIs v r := by
  match v with
  | none => rfl
  | some JsValue.null => rfl
  | some (JsValue.bool _) => rfl
  | some (JsValue.num _) => rfl
  | some (JsValue.str s) =>
      simp only [includesRole, roleIs, List.contains]
      cases h : s == r <;> simp [List.elem, h]
  | some (JsValue.arr _) => rfl
  | some (JsValue.obj _) => rfl

theorem middleware_eq_specGatekeeper (dparse : String → Option Int) (now : Int)
    (path : String) (cookie : CookieSlot) :
    middleware dparse now path cookie = specGatekeeper dparse now path cookie := by
  cases hb1 : jsStartsWith path "/dashboard" with
  | true =>
      have hb2 : jsStartsWith path "/admin" = false := by
        cases hb2 : jsStartsWith path "/admin" with
        | true => exact (not_dashboard_admin hb1 hb2).elim
        | false => rfl
      have hbL : jsStartsWith path "/login" = false := by
        cases hbL : jsStartsWith path "/login" with
        | true => exact (not_dashboard_login hb1 hbL).elim
        | false => rfl
      have hbeq : (path == "/login") = false := by
        cases hbeq : path == "/login" with
        | true =>
            rw [beq_iff_eq] at hbeq
            subst hbeq
            exact absurd hb1 (by decide)
        | false => rfl
      cases hv : jsTruthy ((mwSession dparse now cookie).bind fun s => jsField s "userId") <;>
        simp [middleware, specGatekeeper, specLongestEntry, specRouteTable,
          protectedRoutes, publicRoutes, hb1, hb2, hbL, hbeq, hv]
  | false =>
      cases hb2 : jsStartsWith path "/admin" with
      | true =>
          have hbL : jsStartsWith path "/login" = false := by
            cases hbL : jsStartsWith path "/login" with
            | true => exact (not_admin_login hb2 hbL).elim
            | false => rfl
          have hbeq : (path == "/login") = false := by
            cases hbeq : path == "/login" with
            | true =>
                rw [beq_iff_eq] at hbeq
                subst hbeq
                exact absurd hb2 (by decide)
            | false => rfl
          cases hv : jsTruthy ((mwSession dparse now cookie).bind fun s => jsField s "userId") with
          | false =>
              simp [middleware, specGatekeeper, specLongestEntry, specRouteTable,
                protectedRoutes, publicRoutes, hb1, hb2, hbL, hbeq, hv]
          | true =>
              cases hr : roleIs ((mwSession dparse now cookie).bind fun s => jsField s "role") "admin" <;>
                simp [middleware, specGatekeeper, specLongestEntry, specRouteTable,
                  protectedRoutes, publicRoutes, includesRole_singleton,
                  hb1, hb2, hbL, hbeq, hv, hr]
      | false =>
          cases hbeq : path == "/login" with
          | true =>
              rw [beq_iff_eq] at hbeq
              subst hbeq
              have e1 : jsStartsWith "/login" "/dashboard" = false := by decide
              have e2 : jsStartsWith "/login" "/admin" = false := by decide
              have e3 : jsStartsWith "/login" "/login" = true := by decide
              have e4 : publicRoutes.contains "/login" = true := by decide
              cases hv : jsTruthy ((mwSession dparse now cookie).bind fun s => jsField s "userId") <;>
                simp [middleware, specGatekeeper, specLongestEntry, specRouteTable,
                  protectedRoutes, publicRoutes, e1, e2, e3, e4, hv]
          | false =>
              cases hbL : jsStartsWith path "/login" with
              | true =>
                  simp [middleware, specGatekeeper, specLongestEntry, specRouteTable,
                    protectedRoutes, publicRoutes, hb1, hb2, hbL, hbeq]
              | false =>
                  simp [middleware, specGatekeeper, specLongestEntry, specRouteTable,
                    protectedRoutes, publicRoutes, hb1, hb2, hbL, hbeq]

/-- A parsed cookie object carrying only a `userId`: syntactically valid JSON
with every other session field missing. -/
def missingFieldToken : JsValue := JsValue.obj [("userId", JsValue.num 1)]

/-- A parsed cookie object whose `expiresAt` is not a parseable timestamp. -/
def badDateToken : JsValue :=
  JsValue.obj [("userId", JsValue.num 1), ("email", JsValue.str "john@mail.com"),
    ("role", JsValue.str "customer"), ("expiresAt", JsValue.str "not-a-date")]

/-- A well-formed session record whose `expiresAt` parses under `dparse0` to
the timestamp 1000. -/
def expiringToken : JsValue :=
  JsValue.obj [("userId", JsValue.num 1), ("email", JsValue.str "john@mail.com"),
    ("role", JsValue.str "customer"), ("expiresAt", JsValue.str "1000")]

/-- The record dal.ts `verifySession` returns for `expiringToken`. -/
def customerRecord : VerifiedSession :=
  { isAuth := true
    userId := some (JsValue.num 1)
    email := some (JsValue.str "john@mail.com")
    role := some (JsValue.str "customer") }

/-- C1 (amended): for every cookie whose value fails JSON parsing, and when
the cookie is absent, both `getSession` and the middleware's inline decode
return the uniform no-session outcome; both are total Lean functions, so
neither ever throws. -/
theorem c1_parse_failure_reads_none (dparse : String → Option Int) (now : Int) :
    getSession dparse now none = none ∧ getSession dparse now (some none) = none ∧
    mwSession dparse now none = none ∧ mwSession dparse now (some none) = none :=
  ⟨rfl, rfl, rfl, rfl⟩

/-- C1 is false as stated: a cookie that parses as JSON but is missing fields
(or has a non-parseable `expiresAt`) is returned as a partially populated
record by `getSession`, and kept by the middleware's decode, rather than
folding to the no-session outcome. -/
theorem c1_missing_field_counterexample :
    getSession dparse0 0 (some (some missingFieldToken)) = some missingFieldToken ∧
    getSession dparse0 0 (some (some missingFieldToken)) ≠ none ∧
    getSession dparse0 0 (some (some badDateToken)) = some badDateToken ∧
    mwSession dparse0 0 (some (some missingFieldToken)) = some missingFieldToken := by
  refine ⟨rfl, ?_, rfl, rfl⟩
  intro h
  rw [show getSession dparse0 0 (some (some missingFieldToken)) = some missingFieldToken
    from rfl] at h
  exact Option.noConfusion h

/-- C2 (amended): expiry is decided by the strict comparison
`expiresAt < now`: a decoded record whose `expiresAt` parses to `t` is
returned exactly when `¬(t < now)`, so a session read at exactly `now = t` is
still valid; it is invalid only strictly after its expiry instant. -/
theorem c2_expiry_decided_by_expiresAt_lt_now
    (dparse : String → Option Int) (now t : Int) (v : JsValue) (s : String)
    (hfield : jsField v "expiresAt" = some (JsValue.str s))
    (hparse : dparse s = some t) (hs : s ≠ "") :
    getSession dparse now (some (some v)) = (if t < now then none else some v) ∧
    mwSession dparse now (some (some v)) = (if t < now then none else some v) := by
  cases v with
  | null => simp [jsField] at hfield
  | bool b => simp [jsField] at hfield
  | num n => simp [jsField] at hfield
  | str sv => simp [jsField] at hfield
  | arr xs => simp [jsField] at hfield
  | obj fields =>
      constructor
      · by_cases h : t < now <;>
          simp [getSession, hfield, jsNewDate, hparse, jsDateLt, h]
      · by_cases h : t < now <;>
          simp [mwSession, hfield, jsNewDate, hparse, jsDateLt, jsTruthy, hs, h]

/-- C2 witness at a concrete unexpired record. -/
theorem c2_expiry_witness :
    getSession dparse0 500 (some (some expiringToken)) =
      (if (1000 : Int) < 500 then none else some expiringToken) ∧
    mwSession dparse0 500 (some (some expiringToken)) =
      (if (1000 : Int) < 500 then none else some expiringToken) :=
  c2_expiry_decided_by_expiresAt_lt_now dparse0 500 1000 expiringToken "1000"
    rfl rfl (by decide)

/-- C2 is false as stated: at exactly `now = expiresAt` the session is still
returned, by both readers, rather than being invalid. -/
theorem c2_valid_at_exact_expiry :
    getSession dparse0 1000 (some (some expiringToken)) = some expiringToken ∧
    getSession dparse0 1000 (some (some expiringToken)) ≠ none ∧
    mwSession dparse0 1000 (some (some expiringToken)) = some expiringToken := by
  refine ⟨rfl, ?_, rfl⟩
  intro h
  rw [show getSession dparse0 1000 (some (some expiringToken)) = some expiringToken
    from rfl] at h
  exact Option.noConfusion h

/-- C9: `logout` always succeeds, deleting the session slot and redirecting to
login from every starting state; a read after logout is always no-session for
both readers; deletion is idempotent and deleting an absent session is a
no-op. -/
theorem c9_logout_total_idempotent (dparse : String → Option Int) (now : Int)
    (slot : CookieSlot) :
    logout slot = (none, "/login") ∧
    getSession dparse now (logout slot).1 = none ∧
    mwSession dparse now (logout slot).1 = none ∧
    deleteSession (deleteSession slot) = deleteSession slot ∧
    deleteSession none = none :=
  ⟨rfl, rfl, rfl, rfl, rfl⟩

/-- C10: every path outside the two protected stems and distinct from the
login path passes the middleware through unchanged, whatever the cookie
state. -/
theorem c10_default_public_allow (dparse : String → Option Int) (now : Int)
    (path : String) (cookie : CookieSlot)
    (h1 : jsStartsWith path "/dashboard" = false)
    (h2 : jsStartsWith path "/admin" = false)
    (h3 : path ≠ "/login") :
    middleware dparse now path cookie = MwOutcome.next := by
  have hbeq : (path == "/login") = false := by
    rw [beq_eq_false_iff_ne]; exact h3
  simp [middleware, protectedRoutes, publicRoutes, h1, h2, hbeq]

/-- C10 witness: an unlisted path with a live, unexpired session. -/
theorem c10_default_public_allow_witness :
    middleware dparse0 0 "/about" (some (some expiringToken)) = MwOutcome.next :=
  c10_default_public_allow dparse0 0 "/about" (some (some expiringToken))
    (by decide) (by decide) (by decide)

/-- C6: a request to a protected path (role-restricted or not) whose session
folds to the no-session outcome (cookie absent, undecodable, or expired) is
redirected to login carrying the requested path as the return target. -/
theorem c6_protected_without_session_redirects (dparse : String → Option Int)
    (now : Int) (path : String) (cookie : CookieSlot)
    (hp : jsStartsWith path "/dashboard" = true ∨ jsStartsWith path "/admin" = true)
    (hs : mwSession dparse now cookie = none) :
    middleware dparse now path cookie = MwOutcome.redirectLogin path := by
  rcases hp with hp | hp <;>
    simp [middleware, protectedRoutes, hs, hp, jsTruthy]

/-- C6 witness: a role-restricted path with an expired session cookie. -/
theorem c6_protected_without_session_witness :
    middleware dparse0 5000 "/admin/panel" (some (some expiringToken)) =
      MwOutcome.redirectLogin "/admin/panel" :=
  c6_protected_without_session_redirects dparse0 5000 "/admin/panel"
    (some (some expiringToken)) (Or.inr (by decide)) rfl

/-- C7: on every path matching more than one of the code's route rules, the
middleware's outcome equals the spec gatekeeper's decision, which is driven by
the most specific (longest) matching entry of the route table. -/
theorem c7_most_specific_entry_wins (dparse : String → Option Int) (now : Int)
    (path : String) (cookie : CookieSlot)
    (_hmulti : 2 ≤ (codeRouteRules.filter (fun e => jsStartsWith path e.1)).length) :
    middleware dparse now path cookie = specGatekeeper dparse now path cookie :=
  middleware_eq_specGatekeeper dparse now path cookie

/-- C7 witness: `/admin/users` matches both the plain protected rule and the
role-restricted rule. -/
theorem c7_most_specific_entry_witness :
    middleware dparse0 0 "/admin/users" (some (some expiringToken)) =
      specGatekeeper dparse0 0 "/admin/users" (some (some expiringToken)) :=
  c7_most_specific_entry_wins dparse0 0 "/admin/users" (some (some expiringToken))
    (by decide)

/-- C8: `requireRole` checks the session first — an absent or invalid session
redirects to login whatever the allowed roles; a valid session whose role is
outside `allowedRoles` redirects to the landing area and returns no record; a
valid session with an allowed role returns the record. -/
theorem c8_requireRole_control_flow (dparse : String → Option Int) (now : Int)
    (cookie : CookieSlot) (allowedRoles : List String) :
    (jsTruthy ((getSession dparse now cookie).bind (fun s => jsField s "userId")) = false →
      requireRole dparse now cookie allowedRoles = GuardResult.redirectTo "/login") ∧
    (∀ s, verifySession dparse now cookie = GuardResult.ok s →
      includesRole allowedRoles s.role = false →
      requireRole dparse now cookie allowedRoles = GuardResult.redirectTo "/dashboard") ∧
    (∀ s, verifySession dparse now cookie = GuardResult.ok s →
      includesRole allowedRoles s.role = true →
      requireRole dparse now cookie allowedRoles = GuardResult.ok s) := by
  refine ⟨?_, ?_, ?_⟩
  · intro hv
    simp [requireRole, verifySession, hv]
  · intro s hok hrole
    simp [requireRole, hok, hrole]
  · intro s hok hrole
    simp [requireRole, hok, hrole]

/-- C8 witness: no session, a customer session against `["admin"]`, and a
customer session against a role list containing `customer`. -/
theorem c8_requireRole_witness :
    requireRole dparse0 0 none ["admin"] = GuardResult.redirectTo "/login" ∧
    requireRole dparse0 0 (some (some expiringToken)) ["admin"] =
      GuardResult.redirectTo "/dashboard" ∧
    requireRole dparse0 0 (some (some expiringToken)) ["admin", "customer"] =
      GuardResult.ok customerRecord :=
  ⟨(c8_requireRole_control_flow dparse0 0 none ["admin"]).1 rfl,
   (c8_requireRole_control_flow dparse0 0 (some (some expiringToken)) ["admin"]).2.1
     customerRecord rfl rfl,
   (c8_requireRole_control_flow dparse0 0 (some (some expiringToken))
     ["admin", "customer"]).2.2 customerRecord rfl rfl⟩

/-- A provider whose credential exchange answers with a non-success response
(mirroring the mocked 401 of the test handlers). -/
def providerRejecting : Provider :=
  ⟨fun _ _ => FetchOutcome.errorStatus, fun _ => FetchOutcome.errorStatus⟩

/-- A provider that is unreachable: every call faults at the network level. -/
def providerDown : Provider :=
  ⟨fun _ _ => FetchOutcome.fault, fun _ => FetchOutcome.fault⟩

/-- A provider accepting exactly the mocked credential pair of the test
handlers and serving the mocked customer profile for its token. -/
def providerAccepting : Provider :=
  ⟨fun em pw =>
      if em == "john@mail.com" && pw == "changeme" then
        FetchOutcome.ok ⟨"mock-access-token-123", "mock-refresh-token-456"⟩
      else FetchOutcome.errorStatus,
   fun tok =>
      if tok == "mock-access-token-123" then
        FetchOutcome.ok ⟨1, "john@mail.com", "changeme", "John Doe", "customer",
          "https://api.dicebear.com/7.x/avataaars/svg?seed=John"⟩
      else FetchOutcome.errorStatus⟩

/-- C3: when the credential exchange returns non-success or faults, or the
profile fetch does, a validated login returns a form-level error message and
leaves the cookie slot untouched, so a prior no-session read stays no-session;
and for every login whatsoever, the slot is written at most once — only when
both upstream calls succeed, as the final step, with the fully populated
record. -/
theorem c3_upstream_failure_writes_nothing (provider : Provider)
    (iso : Int → String) (now : Int) (email password : Option String)
    (slot : CookieSlot) (e p : String)
    (he : email = some e) (hp : password = some p)
    (hve : emailError email = none) (hvp : passwordError password = none)
    (hfail : (∀ a, provider.exchange e p ≠ FetchOutcome.ok a) ∨
      (∃ a, provider.exchange e p = FetchOutcome.ok a ∧
        ∀ u, provider.profile a.access_token ≠ FetchOutcome.ok u)) :
    (∃ msg, (login provider iso now email password slot).1 = LoginResult.message msg) ∧
    (login provider iso now email password slot).2 = slot ∧
    (∀ d t, getSession d t slot = none →
      getSession d t (login provider iso now email password slot).2 = none) ∧
    (∀ (q : Provider) (em pw : Option String) (sl : CookieSlot),
      (login q iso now em pw sl).2 = sl ∨
      ∃ a u, q.exchange (em.getD "") (pw.getD "") = FetchOutcome.ok a ∧
        q.profile a.access_token = FetchOutcome.ok u ∧
        (login q iso now em pw sl).2 =
          some (some (createSession iso now u.id u.email u.role))) := by
  subst he hp
  have hstep : ∀ sl, login provider iso now (some e) (some p) sl =
      loginExchange provider iso now e p sl := by
    intro sl
    simp [login, hve, hvp]
  have hmain : (∃ msg, (login provider iso now (some e) (some p) slot).1 =
        LoginResult.message msg) ∧
      (login provider iso now (some e) (some p) slot).2 = slot := by
    rw [hstep]
    cases hex : provider.exchange e p with
    | fault =>
        exact ⟨⟨"An error occurred during login. Please try again.",
          by simp [loginExchange, hex]⟩, by simp [loginExchange, hex]⟩
    | errorStatus =>
        exact ⟨⟨"Invalid email or password. Please try again.",
          by simp [loginExchange, hex]⟩, by simp [loginExchange, hex]⟩
    | ok a =>
        rcases hfail with hleft | ⟨a', ha', hprof⟩
        · exact absurd hex (hleft a)
        · rw [hex] at ha'
          cases ha'
          cases hpr : provider.profile a.access_token with
          | fault =>
              exact ⟨⟨"An error occurred during login. Please try again.",
                by simp [loginExchange, hex, hpr]⟩, by simp [loginExchange, hex, hpr]⟩
          | errorStatus =>
              exact ⟨⟨"Failed to fetch user profile.",
                by simp [loginExchange, hex, hpr]⟩, by simp [loginExchange, hex, hpr]⟩
          | ok u => exact absurd hpr (hprof u)
  refine ⟨hmain.1, hmain.2, ?_, ?_⟩
  · intro d t hnone
    rw [hmain.2]
    exact hnone
  · intro q em pw sl
    cases hval : (emailError em).isSome || (passwordError pw).isSome with
    | true => exact Or.inl (by simp [login, hval])
    | false =>
        cases hex : q.exchange (em.getD "") (pw.getD "") with
        | fault => exact Or.inl (by simp [login, hval, loginExchange, hex])
        | errorStatus => exact Or.inl (by simp [login, hval, loginExchange, hex])
        | ok a =>
            cases hpr : q.profile a.access_token with
            | fault => exact Or.inl (by simp [login, hval, loginExchange, hex, hpr])
            | errorStatus => exact Or.inl (by simp [login, hval, loginExchange, hex, hpr])
            | ok u =>
                exact Or.inr ⟨a, u, rfl, hpr,
                  by simp [login, hval, loginExchange, hex, hpr]⟩

/-- C3 witness: a rejected exchange leaves an empty slot empty and reports a
message. -/
theorem c3_upstream_failure_witness :
    (∃ msg, (login providerRejecting iso0 0 (some "john@mail.com")
      (some "changeme") none).1 = LoginResult.message msg) ∧
    (login providerRejecting iso0 0 (some "john@mail.com")
      (some "changeme") none).2 = none :=
  ⟨(c3_upstream_failure_writes_nothing providerRejecting iso0 0
      (some "john@mail.com") (some "changeme") none "john@mail.com" "changeme"
      rfl rfl (by decide) (by decide)
      (Or.inl (fun _ h => FetchOutcome.noConfusion h))).1,
   (c3_upstream_failure_writes_nothing providerRejecting iso0 0
      (some "john@mail.com") (some "changeme") none "john@mail.com" "changeme"
      rfl rfl (by decide) (by decide)
      (Or.inl (fun _ h => FetchOutcome.noConfusion h))).2.1⟩

/-- C4 names a code bug: on a fully successful login the program does write
the session record built solely from the profile response, with `expiresAt =
now + 7 days` — that part of the claim holds — but `redirect("/dashboard")`
is called inside `login`'s own try block, so the `NEXT_REDIRECT` it throws is
swallowed by the catch and the action returns the generic retry message: the
redirect to the authenticated landing area that the claim (and the source's
own `Redirect to dashboard` comment) promises is never signalled.  Evaluated
here at the repository's own mocked credentials and provider. -/
theorem c4_redirect_swallowed_by_catch :
    login providerAccepting iso0 0 (some "john@mail.com") (some "changeme") none =
      (LoginResult.message "An error occurred during login. Please try again.",
        some (some (createSession iso0 0 1 "john@mail.com" "customer"))) ∧
    createSession iso0 0 1 "john@mail.com" "customer" =
      JsValue.obj [("userId", JsValue.num 1), ("email", JsValue.str "john@mail.com"),
        ("role", JsValue.str "customer"),
        ("expiresAt", JsValue.str (iso0 (0 + 7 * 24 * 60 * 60 * 1000)))] ∧
    (∀ t, (login providerAccepting iso0 0 (some "john@mail.com")
      (some "changeme") none).1 ≠ LoginResult.redirectTo t) := by
  refine ⟨rfl, rfl, ?_⟩
  intro t h
  rw [show (login providerAccepting iso0 0 (some "john@mail.com")
    (some "changeme") none).1 =
      LoginResult.message "An error occurred during login. Please try again."
    from rfl] at h
  exact LoginResult.noConfusion h

/-- C5 is false as stated: the same validated credentials yield the message
`Invalid email or password. Please try again.` when the exchange answers
non-success but `An error occurred during login. Please try again.` when the
exchange faults at the network level — the two outcomes differ, so the caller
can distinguish wrong-password from provider-down. -/
theorem c5_distinguishable_failures_counterexample :
    (login providerRejecting iso0 0 (some "john@mail.com") (some "changeme") none).1 =
      LoginResult.message "Invalid email or password. Please try again." ∧
    (login providerDown iso0 0 (some "john@mail.com") (some "changeme") none).1 =
      LoginResult.message "An error occurred during login. Please try again." ∧
    (login providerRejecting iso0 0 (some "john@mail.com") (some "changeme") none).1 ≠
      (login providerDown iso0 0 (some "john@mail.com") (some "changeme") none).1 := by
  refine ⟨rfl, rfl, ?_⟩
  decide

/-- C5 (amended): each exchange-failure class yields a fixed generic message
independent of the credentials and of any upstream error detail — a
non-success response always yields the invalid-credentials text, a
network-level fault always yields the generic retry text — but the two texts
differ between the classes. -/
theorem c5_fixed_generic_messages (provider : Provider) (iso : Int → String)
    (now : Int) (email password : Option String) (slot : CookieSlot) (e p : String)
    (he : email = some e) (hp : password = some p)
    (hve : emailError email = none) (hvp : passwordError password = none) :
    (provider.exchange e p = FetchOutcome.errorStatus →
      (login provider iso now email password slot).1 =
        LoginResult.message "Invalid email or password. Please try again.") ∧
    (provider.exchange e p = FetchOutcome.fault →
      (login provider iso now email password slot).1 =
        LoginResult.message "An error occurred during login. Please try again.") := by
  subst he hp
  constructor <;> intro hex <;> simp [login, hve, hvp, loginExchange, hex]

/-- C5 witness: both failure classes at the concrete mocked credentials. -/
theorem c5_fixed_generic_messages_witness :
    (login providerRejecting iso0 0 (some "john@mail.com") (some "changeme") none).1 =
      LoginResult.message "Invalid email or password. Please try again." ∧
    (login providerDown iso0 0 (some "john@mail.com") (some "changeme") none).1 =
      LoginResult.message "An error occurred during login. Please try again." :=
  ⟨(c5_fixed_generic_messages providerRejecting iso0 0 (some "john@mail.com")
      (some "changeme") none "john@mail.com" "changeme" rfl rfl
      (by decide) (by decide)).1 rfl,
   (c5_fixed_generic_messages providerDown iso0 0 (some "john@mail.com")
      (some "changeme") none "john@mail.com" "changeme" rfl rfl
      (by decide) (by decide)).2 rfl⟩

end NextjsAuth
